import Mathlib

/-!
Verification of the mcos Monte-Carlo optimizer-comparison engine.

The repository sources under verification are `mcos/optimizer/base.py`
(the abstract `Optimizer` class) and `tests/test_mcos.py` (the golden
regression table).  The remaining components (orchestrator, observation
simulators, covariance transformer, concrete optimizers, error
estimators) are not present in the source tree; where a claim depends on
them they are modelled from the specification, and each such definition
says so in its doc comment.
-/

namespace Mcos

/-! ### Python-semantics model for the `Optimizer` class body

`src/mcos/optimizer/base.py` defines the abstract class `Optimizer` with
an `allocate` member decorated `@abstractmethod`, and a `name` member
decorated `@abstractmethod` placed *above* `@property`.  Decorators apply
bottom-up, so evaluating the class body computes
`abstractmethod(property(name_function))`.
-/

/-- The Python runtime error relevant to evaluating the `Optimizer` class
body: `AttributeError`, raised when assigning to an attribute that is not
writable. -/
inductive PyError
  | attributeError
  deriving DecidableEq, Repr

/-- A Python object as needed to evaluate the class body: a plain function
object (whose attribute namespace is writable; we track its
`__isabstractmethod__` flag), or a `property` object wrapping a getter.
In CPython, `property.__isabstractmethod__` is a read-only descriptor
computed from the wrapped accessors, so it cannot be assigned. -/
inductive PyObj
  | func (isAbstract : Bool)
  | prop (getter : PyObj)
  deriving DecidableEq, Repr

/-- `abc.abstractmethod(funcobj)` performs
`funcobj.__isabstractmethod__ = True` and returns `funcobj`.  On a plain
function object the assignment succeeds; on a `property` object it raises
`AttributeError` because the attribute is a read-only descriptor. -/
def abstractmethod : PyObj → Except PyError PyObj
  | .func _ => .ok (.func true)
  | .prop _ => .error .attributeError

/-- The `property` built-in applied to a function object: wraps it in a
property object. -/
def pyProperty (f : PyObj) : PyObj := .prop f

/-- The two members a successful evaluation of the `Optimizer` class body
would produce. -/
structure OptimizerClass where
  allocate : PyObj
  name : PyObj
  deriving DecidableEq, Repr

/-- Evaluation of the class body of `Optimizer` in
`src/mcos/optimizer/base.py`: `allocate` is `@abstractmethod` applied to a
function object; `name` is `@abstractmethod` applied to the *property*
object produced by `@property` (the decorators appear in that order in
the source, `@abstractmethod` on top). -/
def evalOptimizerClassBody : Except PyError OptimizerClass := do
  let allocate ← abstractmethod (.func false)
  let name ← abstractmethod (pyProperty (.func false))
  pure { allocate := allocate, name := name }

/-- Whether evaluating the `Optimizer` class body (and hence importing the
module `mcos.optimizer.base`) succeeds. -/
def optimizerClassBodySucceeds : Bool :=
  match evalOptimizerClassBody with
  | .ok _ => true
  | .error _ => false

/-! ### Golden regression data from `tests/test_mcos.py`

The parametrised test `test_simulate_observations` records, for each
(simulator, error estimator, transformer list) configuration run under
`np.random.seed(0)`, the expected per-optimizer mean-error and
stdev-error vectors (order: Markowitz, NCO, HRP, RiskParity).  The table
below transcribes those recorded reference vectors exactly. -/

/-- One row of the golden table of `test_simulate_observations`:
simulator name, error-estimator name, whether the
`DeNoiserCovarianceTransformer` is applied, and the recorded reference
vectors. -/
structure GoldenRow where
  simulator : String
  estimator : String
  denoised : Bool
  expected_mean : List ℚ
  expected_stdev : List ℚ
  deriving DecidableEq, Repr

/-- The eighteen parametrisations of `test_simulate_observations`
(`src/tests/test_mcos.py`, lines 22-148), transcribed verbatim. -/
def goldenRows : List GoldenRow :=
  [ { simulator := "MuCov", estimator := "ExpectedOutcome", denoised := true,
      expected_mean := [0.07580845, 0.05966212, -0.02893896, 0.0085226],
      expected_stdev := [0.03445259, 0.03214469, 0.01724587, 0.01244282] },
    { simulator := "MuCov", estimator := "ExpectedOutcome", denoised := false,
      expected_mean := [0.05043029, -0.0761952, -0.03200537, -0.00413669],
      expected_stdev := [0.05422127, 0.25850676, 0.0196157, 0.01376204] },
    { simulator := "MuCov", estimator := "SharpeRatio", denoised := true,
      expected_mean := [0.44088768, 0.32030003, -0.26876011, 0.15122857],
      expected_stdev := [0.156086, 0.16563697, 0.13853157, 0.27771979] },
    { simulator := "MuCov", estimator := "SharpeRatio", denoised := false,
      expected_mean := [0.2390896, -0.10741015, -0.24046168, -0.0070365],
      expected_stdev := [0.26834958, 0.171923, 0.16837215, 0.14896394] },
    { simulator := "MuCov", estimator := "Variance", denoised := true,
      expected_mean := [0.03447771, 0.03842862, 0.01002529, 0.00207496],
      expected_stdev := [0.01720998, 0.0161673, 0.00338963, 0.00068379] },
    { simulator := "MuCov", estimator := "Variance", denoised := false,
      expected_mean := [0.05416531, 3.25027156, 0.02014813, 0.00666281],
      expected_stdev := [0.00867717, 2.04014303, 0.00424525, 0.00419053] },
    { simulator := "MuCovLedoitWolf", estimator := "ExpectedOutcome", denoised := true,
      expected_mean := [0.05183939, 0.07230958, -0.02051239, -0.0086959],
      expected_stdev := [0.00979491, 0.00997131, 0.00640547, 0.00077058] },
    { simulator := "MuCovLedoitWolf", estimator := "ExpectedOutcome", denoised := false,
      expected_mean := [0.05010366, 0.05885478, -0.0375485, -0.00431366],
      expected_stdev := [0.02262029, 0.02348383, 0.00511152, 0.01081385] },
    { simulator := "MuCovLedoitWolf", estimator := "SharpeRatio", denoised := true,
      expected_mean := [0.52634486, 0.58680348, -0.44668879, -0.34823549],
      expected_stdev := [0.12738562, 0.08301391, 0.15521816, 0.02176522] },
    { simulator := "MuCovLedoitWolf", estimator := "SharpeRatio", denoised := false,
      expected_mean := [0.37685555, 0.35742078, -0.46377915, -0.0650202],
      expected_stdev := [0.17793642, 0.13892987, 0.03466091, 0.2445361] },
    { simulator := "MuCovLedoitWolf", estimator := "Variance", denoised := true,
      expected_mean := [0.01001657, 0.01522694, 0.00218297, 0.00063938],
      expected_stdev := [0.00117849, 0.00113607, 0.00020851, 0.00015752] },
    { simulator := "MuCovLedoitWolf", estimator := "Variance", denoised := false,
      expected_mean := [0.01897399, 0.02695813, 0.00654766, 0.00203981],
      expected_stdev := [0.00319618, 0.00262264, 0.00095974, 0.00060647] },
    { simulator := "MuCovJackknife", estimator := "ExpectedOutcome", denoised := true,
      expected_mean := [0.0758128, 0.06085414, -0.02948377, -0.00852103],
      expected_stdev := [0.03445484, 0.03214721, 0.01652253, 0.01244531] },
    { simulator := "MuCovJackknife", estimator := "ExpectedOutcome", denoised := false,
      expected_mean := [0.0487412, 10.21950872, -0.03201583, -0.00414127],
      expected_stdev := [0.05596715, 13.12656593, 0.01962365, 0.01365775] },
    { simulator := "MuCovJackknife", estimator := "SharpeRatio", denoised := true,
      expected_mean := [0.44420332, 0.34013247, -0.27352751, 0.1512315],
      expected_stdev := [0.15609054, 0.18039154, 0.13119882, 0.27774587] },
    { simulator := "MuCovJackknife", estimator := "SharpeRatio", denoised := false,
      expected_mean := [0.2309123, 0.32883471, -0.2404617, -0.00704547],
      expected_stdev := [0.27568471, 0.06322784, 0.16837224, 0.14896722] },
    { simulator := "MuCovJackknife", estimator := "Variance", denoised := true,
      expected_mean := [0.03448147, 0.03740596, 0.01034748, 0.00207010],
      expected_stdev := [0.01721475, 0.01784114, 0.00298154, 0.00068010] },
    { simulator := "MuCovJackknife", estimator := "Variance", denoised := false,
      expected_mean := [0.05147521, 1706.73921323, 0.0201481, 0.0066681],
      expected_stdev := [0.00792436, 2394.21167618, 0.0042452, 0.0041945] } ]

/-- Pair consecutive rows: the source's parametrisation lists, for each
(simulator, estimator) configuration, the denoised row immediately
followed by its no-transformer counterpart. -/
def pairUp : List GoldenRow → List (GoldenRow × GoldenRow)
  | d :: p :: rest => (d, p) :: pairUp rest
  | _ => []

/-- The nine (denoised run, no-transformer run) pairs of the golden
table, one per (simulator, estimator) configuration. -/
def goldenPairs : List (GoldenRow × GoldenRow) := pairUp goldenRows

/-- How many of the four per-optimizer stdev components of the
no-transformer row `p` strictly exceed the corresponding components of
the denoised row `d`. -/
def countHigherStdev (d p : GoldenRow) : ℕ :=
  ((List.zip p.expected_stdev d.expected_stdev).filter
    (fun q => decide (q.2 < q.1))).length

/-- Across all nine (simulator, estimator) configurations of the golden
table, the total number of stdev components that are strictly higher in
the no-transformer run than in the denoised run (out of 36). -/
def higherStdevCount : ℕ :=
  (goldenPairs.map (fun q => countHigherStdev q.1 q.2)).sum

/-! ### Orchestrator model

Modelled from the spec: `mcos.mcos.simulate_optimizations` (§4.5) is not
under `src/`; only its golden test is.  The model follows §4.5 exactly:
for each of `n_sims` trials, draw one collapsed (μ̂, Σ̂) estimate from the
simulator, apply the covariance transformers in caller order, run every
optimizer on (μ̂, Σ̂′), feed each weight vector through the error
estimator to get one scalar per optimizer per trial, and afterwards
aggregate each optimizer's per-trial scalars into mean and sample
standard deviation, one result row per optimizer in input order.
Randomness is modelled as an explicit generator state of abstract type
`Rng` threaded through the simulator (§9: the source seeds a global
generator once; the explicit state makes the stream an input).
Exact rational scalars stand in for the source's floating-point values.
-/

/-- A vector of scalars (expected returns, weights, error values). -/
abbrev Vec := List ℚ

/-- A matrix of scalars (covariance matrices). -/
abbrev Mat := List Vec

/-- Error kinds of the engine (spec §7).  Modelled from the spec: the
error types are not under `src/`. -/
inductive McosError
  | dimensionError
  | numericalError
  | convergenceError
  | configurationError
  deriving DecidableEq, Repr

/-- The optimizer contract of `src/mcos/optimizer/base.py`: a name (shown
in the results table) and an `allocate` function from an expected-return
vector and covariance matrix to a weight vector, which may fail (§4.3,
§7). -/
structure OptimizerIface where
  name : String
  allocate : Vec → Mat → Except McosError Vec

/-- Modelled from the spec (§4.5): the collaborators of one
`simulate_optimizations` call — the observation simulator (already
collapsing each trial's draws to a single (μ̂, Σ̂) per §4.1), the ordered
covariance transformers (§4.2, each also receives `n_observations`), the
error estimator (§4.4: weight vector, true mean, true covariance →
scalar), and the true parameters. -/
structure McosConfig (Rng : Type) where
  simulate : Rng → Except McosError ((Vec × Mat) × Rng)
  nObs : ℕ
  transformers : List (Mat → ℕ → Except McosError Mat)
  estimator : Vec → Vec → Mat → Except McosError ℚ
  trueMu : Vec
  trueCov : Mat

/-- Apply the covariance transformers in caller-specified order (§4.2):
each receives the output of the previous one, plus `n_observations`. -/
def applyTransformers (nObs : ℕ) :
    List (Mat → ℕ → Except McosError Mat) → Mat → Except McosError Mat
  | [], cov => .ok cov
  | t :: ts, cov => (t cov nObs).bind fun cov' => applyTransformers nObs ts cov'

/-- One trial's per-optimizer error scalars (§4.5): run every optimizer
on the trial estimate (μ̂, Σ̂′) and feed each weight vector through the
error estimator; one scalar per optimizer, in optimizer order. -/
def trialErrors {Rng : Type} (cfg : McosConfig Rng) (mu : Vec) (cov : Mat) :
    List OptimizerIface → Except McosError (List ℚ)
  | [] => .ok []
  | o :: os =>
      (o.allocate mu cov).bind fun w =>
        (cfg.estimator w cfg.trueMu cfg.trueCov).bind fun e =>
          (trialErrors cfg mu cov os).bind fun es => .ok (e :: es)

/-- One full trial (§4.5): draw a collapsed observation, transform its
covariance, and score every optimizer. -/
def runTrial {Rng : Type} (cfg : McosConfig Rng) (opts : List OptimizerIface)
    (rng : Rng) : Except McosError (List ℚ × Rng) :=
  (cfg.simulate rng).bind fun ob =>
    (applyTransformers cfg.nObs cfg.transformers ob.1.2).bind fun cov' =>
      (trialErrors cfg ob.1.1 cov' opts).bind fun es => .ok (es, ob.2)

/-- Run `n` trials sequentially, threading the generator state; the
result collects one row of per-optimizer error scalars per trial. -/
def runTrials {Rng : Type} (cfg : McosConfig Rng) (opts : List OptimizerIface) :
    ℕ → Rng → Except McosError (List (List ℚ) × Rng)
  | 0, rng => .ok ([], rng)
  | n + 1, rng =>
      (runTrial cfg opts rng).bind fun p =>
        (runTrials cfg opts n p.2).bind fun q => .ok (p.1 :: q.1, q.2)

/-- Arithmetic mean of a list of scalars (0 on the empty list, since
`1 / 0 = 0` in `ℚ`). -/
def arithMean (l : List ℚ) : ℚ := l.sum / l.length

/-- Sample variance (denominator `length - 1`) of a list of scalars. -/
def sampleVar (l : List ℚ) : ℚ :=
  (l.map (fun x => (x - arithMean l) ^ 2)).sum / ((l.length : ℚ) - 1)

/-- Sample standard deviation of a list of scalars, as a real number. -/
noncomputable def sampleStdev (l : List ℚ) : ℝ := Real.sqrt ((sampleVar l : ℚ) : ℝ)

/-- One row of the results table (§3, §6): the optimizer's name and the
mean and sample standard deviation of its per-trial error scalars. -/
structure ResultRow where
  optimizer_name : String
  mean : ℚ
  stdev : ℝ

/-- The error scalars collected for the optimizer at position `i`: the
`i`-th entry of each trial's row. -/
def column (i : ℕ) (trials : List (List ℚ)) : List ℚ :=
  trials.map (fun es => es.getD i 0)

/-- Build the result rows from the collected trial matrix: one row per
optimizer, in input order, each aggregating that optimizer's column. -/
noncomputable def buildRowsAux (trials : List (List ℚ)) :
    ℕ → List OptimizerIface → List ResultRow
  | _, [] => []
  | i, o :: os =>
      { optimizer_name := o.name
        mean := arithMean (column i trials)
        stdev := sampleStdev (column i trials) } :: buildRowsAux trials (i + 1) os

/-- Modelled from the spec (§4.5, §6): `simulate_optimizations` — run
`n_sims` trials and aggregate each optimizer's per-trial error scalars
into one result row, rows in input optimizer order. -/
noncomputable def simulate_optimizations {Rng : Type} (cfg : McosConfig Rng)
    (nSims : ℕ) (opts : List OptimizerIface) (rng : Rng) :
    Except McosError (List ResultRow) :=
  (runTrials cfg opts nSims rng).map (fun p => buildRowsAux p.1 0 opts)

/-- The per-trial error scalars of the single optimizer `o`, written as a
straight-line recursion over trials: per trial, draw the observation,
transform, allocate with `o` alone, and score.  This is the reference
reformulation of "the per-trial error scalars collected for that
optimizer" against which the orchestrator's aggregation is checked. -/
def perOptErrors {Rng : Type} (cfg : McosConfig Rng) (o : OptimizerIface) :
    ℕ → Rng → Except McosError (List ℚ)
  | 0, _ => .ok []
  | n + 1, rng =>
      (cfg.simulate rng).bind fun ob =>
        (applyTransformers cfg.nObs cfg.transformers ob.1.2).bind fun cov' =>
          (o.allocate ob.1.1 cov').bind fun w =>
            (cfg.estimator w cfg.trueMu cfg.trueCov).bind fun e =>
              (perOptErrors cfg o n ob.2).bind fun rest => .ok (e :: rest)

/-- The result row of optimizer `o` as determined by `o` alone (given the
shared configuration, trial count and initial generator state): aggregate
`o`-s straight-line per-trial error scalars.  The error branch is never
reached when the surrounding run succeeds. -/
noncomputable def rowFor {Rng : Type} (cfg : McosConfig Rng) (nSims : ℕ)
    (rng : Rng) (o : OptimizerIface) : ResultRow :=
  match perOptErrors cfg o nSims rng with
  | .ok errs =>
      { optimizer_name := o.name, mean := arithMean errs, stdev := sampleStdev errs }
  | .error _ => { optimizer_name := o.name, mean := 0, stdev := 0 }

/-! ### Observation simulators

Modelled from the spec: `mcos.observation_simulator` (§4.1) is not under
`src/`.  All three variants draw `n_observations` i.i.d. samples from the
multivariate normal with the true parameters — the normal sampler itself
has no shallow embedding, so it is abstracted as a `draw` function
consuming the generator state — and differ only in the covariance
estimator applied to the draws.  Each variant fails with a
`NumericalError` when fewer than 2 observations are requested (§4.1:
covariance undefined). -/

/-- Componentwise sum of two vectors. -/
def vecAdd (v w : Vec) : Vec := List.zipWith (· + ·) v w

/-- Componentwise difference of two vectors. -/
def vecSub (v w : Vec) : Vec := List.zipWith (· - ·) v w

/-- Scale a vector by a scalar. -/
def vecScale (c : ℚ) (v : Vec) : Vec := v.map (c * ·)

/-- Entrywise sum of two matrices. -/
def matAdd (A B : Mat) : Mat := List.zipWith vecAdd A B

/-- Entrywise difference of two matrices. -/
def matSub (A B : Mat) : Mat := List.zipWith vecSub A B

/-- Scale a matrix by a scalar. -/
def matScale (c : ℚ) (A : Mat) : Mat := A.map (vecScale c)

/-- Outer product of two vectors. -/
def outer (v w : Vec) : Mat := v.map (fun x => w.map (fun y => x * y))

/-- Sample mean of a list of draws (empty list ↦ empty vector). -/
def sampleMean (draws : List Vec) : Vec :=
  match draws with
  | [] => []
  | d :: ds => vecScale (1 / (draws.length : ℚ)) (ds.foldl vecAdd d)

/-- Sample covariance of a list of draws: mean outer product of the
deviations from the sample mean, with denominator `length - 1`. -/
def sampleCovariance (draws : List Vec) : Mat :=
  let m := sampleMean draws
  match draws.map (fun d => let dev := vecSub d m; outer dev dev) with
  | [] => []
  | M :: Ms =>
      matScale (1 / ((draws.length : ℚ) - 1)) (Ms.foldl matAdd M)

/-- Draw `n` samples in sequence, threading the generator state. -/
def drawN {Rng : Type} (draw : Rng → Vec × Rng) : ℕ → Rng → List Vec × Rng
  | 0, rng => ([], rng)
  | n + 1, rng =>
      let (v, rng') := draw rng
      let (vs, rng'') := drawN draw n rng'
      (v :: vs, rng'')

/-- Modelled from the spec (§4.1 Plain): `MuCovObservationSimulator` —
draw `n_observations` i.i.d. samples (via the abstract sampler `draw`);
the observation's mean is the sample mean of the draws and its covariance
the sample covariance; fewer than 2 observations is a `NumericalError`. -/
def muCovSimulate {Rng : Type} (draw : Rng → Vec × Rng) (nObs : ℕ)
    (rng : Rng) : Except McosError ((Vec × Mat) × Rng) :=
  if nObs < 2 then .error .numericalError
  else
    let (draws, rng') := drawN draw nObs rng
    .ok ((sampleMean draws, sampleCovariance draws), rng')

/-- Diagonal of a square matrix. -/
def diagonal (S : Mat) : Vec :=
  (List.range S.length).map (fun i => (S.getD i []).getD i 0)

/-- The structured shrinkage target (§4.1 Shrinkage variant): the
identity structure scaled by the average sample variance. -/
def shrinkageTarget (S : Mat) : Mat :=
  let avgVar := arithMean (diagonal S)
  (List.range S.length).map (fun i =>
    (List.range S.length).map (fun j => if i = j then avgVar else 0))

/-- Modelled from the spec (§4.1 Shrinkage):
`MuCovLedoitWolfObservationSimulator` — identical sampling, covariance
estimated as the convex combination `δ · target + (1 − δ) · sample`.
The shrinkage intensity (spec: "weight chosen to minimize expected
estimation error") has no closed form in the spec and is taken as the
parameter `δ`. -/
def muCovLedoitWolfSimulate {Rng : Type} (δ : ℚ) (draw : Rng → Vec × Rng)
    (nObs : ℕ) (rng : Rng) : Except McosError ((Vec × Mat) × Rng) :=
  if nObs < 2 then .error .numericalError
  else
    let (draws, rng') := drawN draw nObs rng
    let S := sampleCovariance draws
    .ok ((sampleMean draws, matAdd (matScale δ (shrinkageTarget S)) (matScale (1 - δ) S)), rng')

/-- Entrywise mean of a list of equally-shaped matrices. -/
def matMean (Ms : List Mat) : Mat :=
  match Ms with
  | [] => []
  | M :: rest => matScale (1 / (Ms.length : ℚ)) (rest.foldl matAdd M)

/-- The leave-one-out sample covariances of a list of draws. -/
def looCovariances (draws : List Vec) : List Mat :=
  (List.range draws.length).map (fun i => sampleCovariance (draws.eraseIdx i))

/-- The jackknife bias-corrected covariance estimate (§4.1 Jackknife):
`n · S − (n − 1) · mean(S₋ᵢ)` over the leave-one-out sample
covariances `S₋ᵢ`. -/
def jackknifeCovariance (draws : List Vec) : Mat :=
  matSub (matScale (draws.length : ℚ) (sampleCovariance draws))
    (matScale ((draws.length : ℚ) - 1) (matMean (looCovariances draws)))

/-- Modelled from the spec (§4.1 Jackknife):
`MuCovJackknifeObservationSimulator` — identical sampling, covariance
estimated by leave-one-out resampling combined with the jackknife
bias-correction formula. -/
def muCovJackknifeSimulate {Rng : Type} (draw : Rng → Vec × Rng)
    (nObs : ℕ) (rng : Rng) : Except McosError ((Vec × Mat) × Rng) :=
  if nObs < 2 then .error .numericalError
  else
    let (draws, rng') := drawN draw nObs rng
    .ok ((sampleMean draws, jackknifeCovariance draws), rng')

/-! ### Optimizer variants

Modelled from the spec: the four concrete optimizers of `mcos.optimizer`
(§4.3) are not under `src/`; only the abstract base class is.  The models
work over exact rationals (division by zero yields 0 in `ℚ`, standing in
for the source's guarded numerics); square roots, which only rescale and
never change dimensions, are avoided by monotone surrogates noted per
definition. -/

/-- Dot product of two vectors. -/
def dot (v w : Vec) : ℚ := (List.zipWith (· * ·) v w).sum

/-- Matrix–vector product. -/
def matVec (A : Mat) (v : Vec) : Vec := A.map (fun row => dot row v)

/-- One entry of a matrix (0 when out of range). -/
def entry (A : Mat) (i j : ℕ) : ℚ := (A.getD i []).getD j 0

/-- Determinant by Laplace expansion along the first row. -/
def detL : Mat → ℚ
  | [] => 1
  | row :: rows =>
      ((List.range row.length).map (fun j =>
        (-1 : ℚ) ^ j * row.getD j 0 * detL (rows.map (fun r => r.eraseIdx j)))).sum
termination_by M => M.length
decreasing_by
  simp only [List.length_map, List.length_cons]
  omega

/-- The matrix `A` with column `i` replaced by the vector `b`. -/
def replaceColumn (A : Mat) (i : ℕ) (b : Vec) : Mat :=
  (A.zip b).map (fun p => p.1.set i p.2)

/-- Solution of the linear system `A x = b` by Cramer's rule (entries are
0/0 = 0 when `A` is singular; callers guard on `detL A`). -/
def solveLinear (A : Mat) (b : Vec) : Vec :=
  (List.range b.length).map (fun i => detL (replaceColumn A i b) / detL A)

/-- The equal-weight portfolio on `n` assets. -/
def equalWeights (n : ℕ) : Vec := List.replicate n (1 / (n : ℚ))

/-- Normalize a vector to sum 1 (left unchanged when the sum is 0). -/
def normalizeSum (w : Vec) : Vec :=
  if w.sum = 0 then w else w.map (· / w.sum)

/-- Modelled from the spec (§4.3 Markowitz): mean-variance optimization —
the closed-form mean-variance solution `w ∝ Σ⁻¹ μ` computed via Cramer's
rule and normalized to sum 1, falling back to equal weighting when the
covariance is singular (spec: "falls back to equal weighting … if the
quadratic program is infeasible or the covariance is singular").  The
long-only constraint of the quadratic program is not modelled. -/
def markowitzAllocate (mu : Vec) (cov : Mat) : Vec :=
  if detL cov = 0 then equalWeights mu.length
  else normalizeSum (solveLinear cov mu)

/-- Each asset's contribution to portfolio variance: `wᵢ · (Σ w)ᵢ`. -/
def riskContributions (cov : Mat) (w : Vec) : Vec :=
  List.zipWith (· * ·) w (matVec cov w)

/-- One step of the risk-parity iteration: rescale every weight toward
equal risk contribution (target `total / n` per asset) and re-normalize
to sum 1. -/
def rpStep (cov : Mat) (w : Vec) : Vec :=
  let rc := riskContributions cov w
  let total := rc.sum
  let n := w.length
  normalizeSum ((List.range n).map (fun i =>
    let c := rc.getD i 0
    if c = 0 then w.getD i 0 else w.getD i 0 * total / ((n : ℚ) * c)))

/-- The fixed iteration budget of the risk-parity solver (§4.3: the
iterative solver has an iteration budget). -/
def rpBudget : ℕ := 100

/-- Modelled from the spec (§4.3 RiskParity): solve for equal marginal
risk contributions by iterative numerical optimization — a fixed budget
of rescale-and-normalize steps from the uniform start (spec: "uniform is
the default start"), subject to weights summing to 1. -/
def riskParityAllocate (mu : Vec) (cov : Mat) : Vec :=
  (rpStep cov)^[rpBudget] (equalWeights mu.length)

/-- Squared correlation of assets `i` and `j` under `cov`:
`ρ² = cᵢⱼ² / (cᵢᵢ · cⱼⱼ)`. -/
def corrSq (cov : Mat) (i j : ℕ) : ℚ :=
  let d := entry cov i i * entry cov j j
  if d = 0 then 0 else entry cov i j * entry cov i j / d

/-- Correlation-based distance between assets `i` and `j` (§4.3):
modelled by the square-root-free monotone surrogate `1 − ρ²` (0 on the
diagonal), which induces the same nearest-first ordering as the spec's
`√((1 − ρ)/2)` for non-negatively correlated assets. -/
def distEntry (cov : Mat) (i j : ℕ) : ℚ :=
  if i = j then 0 else 1 - corrSq cov i j

/-- The unplaced asset nearest to asset `i` under the correlation
distance (leftmost on ties). -/
def nearestTo (cov : Mat) (i : ℕ) : List ℕ → Option ℕ
  | [] => none
  | j :: rest =>
      match nearestTo cov i rest with
      | none => some j
      | some k => if distEntry cov i j ≤ distEntry cov i k then some j else some k

/-- Greedy seriation: repeatedly append the unplaced asset nearest to the
last placed one (`fuel` bounds the recursion by the asset count). -/
def seriateAux (cov : Mat) : ℕ → ℕ → List ℕ → List ℕ
  | 0, _, _ => []
  | _ + 1, _, [] => []
  | fuel + 1, last, remaining =>
      match nearestTo cov last remaining with
      | none => []
      | some j => j :: seriateAux cov fuel j (remaining.erase j)

/-- Modelled from the spec (§4.3 HRP step 2): the dendrogram's leaf order
used for quasi-diagonalization, modelled by a deterministic greedy
seriation over the correlation distance starting from asset 0. -/
def leafOrder (cov : Mat) (n : ℕ) : List ℕ :=
  match n with
  | 0 => []
  | m + 1 => 0 :: seriateAux cov m 0 ((List.range (m + 1)).drop 1)

/-- Inverse-variance weights within the cluster `idxs`, normalized to
sum 1 (§4.3 HRP: "inverse-variance-weighted sub-portfolios"). -/
def invVarWeights (cov : Mat) (idxs : List ℕ) : Vec :=
  normalizeSum (idxs.map (fun i =>
    let v := entry cov i i
    if v = 0 then 0 else 1 / v))

/-- The sub-covariance of `cov` on the index set `idxs`. -/
def subCov (cov : Mat) (idxs : List ℕ) : Mat :=
  idxs.map (fun i => idxs.map (fun j => entry cov i j))

/-- Aggregated variance of the cluster `idxs`: the variance of its
inverse-variance-weighted sub-portfolio. -/
def clusterVariance (cov : Mat) (idxs : List ℕ) : ℚ :=
  let w := invVarWeights cov idxs
  dot w (matVec (subCov cov idxs) w)

/-- Modelled from the spec (§4.3 HRP step 3): recursive bisection of the
(reordered) asset list — split in half, allocate capital between the two
halves inversely proportional to their aggregated cluster variances, and
recurse until single assets remain.  Returns (asset, weight) pairs. -/
def hrpBisect (cov : Mat) : List ℕ → List (ℕ × ℚ)
  | [] => []
  | [i] => [(i, 1)]
  | i :: j :: rest =>
      let k := (i :: j :: rest).length / 2
      let l1 := (i :: j :: rest).take k
      let l2 := (i :: j :: rest).drop k
      let v1 := clusterVariance cov l1
      let v2 := clusterVariance cov l2
      let α := if v1 + v2 = 0 then 1 / 2 else 1 - v1 / (v1 + v2)
      (hrpBisect cov l1).map (fun p => (p.1, α * p.2)) ++
        (hrpBisect cov l2).map (fun p => (p.1, (1 - α) * p.2))
termination_by l => l.length
decreasing_by
  · simp only [List.length_take, List.length_cons]
    omega
  · simp only [List.length_drop, List.length_cons]
    omega

/-- Modelled from the spec (§4.3 HRP): build the correlation-distance
leaf order, recursively bisect it, and read each asset's weight back in
original asset order. -/
def hrpAllocate (mu : Vec) (cov : Mat) : Vec :=
  let pairs := hrpBisect cov (leafOrder cov mu.length)
  (List.range mu.length).map (fun i =>
    ((pairs.find? (fun p => p.1 == i)).map Prod.snd).getD 0)

/-- Minimum-variance weights on the covariance `S` of `n` assets:
`w ∝ S⁻¹ 1`, via Cramer's rule, normalized to sum 1. -/
def minVarWeights (S : Mat) (n : ℕ) : Vec :=
  normalizeSum (solveLinear S (List.replicate n 1))

/-- Modelled from the spec (§4.3 NCO step 2): split the assets into two
disjoint clusters by a fixed deterministic heuristic — an asset joins
cluster 1 when its correlation distance to asset 0 is at most the
average such distance (asset 0 itself always qualifies). -/
def ncoClusters (cov : Mat) (n : ℕ) : List ℕ × List ℕ :=
  let avg := arithMean ((List.range n).map (fun j => distEntry cov 0 j))
  ((List.range n).filter (fun j => decide (distEntry cov 0 j ≤ avg)),
   (List.range n).filter (fun j => decide (¬ distEntry cov 0 j ≤ avg)))

/-- The cross-covariance block of `cov` between index sets `a` and `b`. -/
def crossCov (cov : Mat) (a b : List ℕ) : Mat :=
  a.map (fun i => b.map (fun j => entry cov i j))

/-- The 2×2 covariance of the two synthetic cluster assets (§4.3 NCO
step 4): each cluster is its intra-cluster minimum-variance portfolio,
so block `(a, b)` contributes `wₐᵀ Σ[a,b] w_b`. -/
def interClusterCov (cov : Mat) (c1 c2 : List ℕ) : Mat :=
  let w1 := minVarWeights (subCov cov c1) c1.length
  let w2 := minVarWeights (subCov cov c2) c2.length
  [[dot w1 (matVec (crossCov cov c1 c1) w1), dot w1 (matVec (crossCov cov c1 c2) w2)],
   [dot w2 (matVec (crossCov cov c2 c1) w1), dot w2 (matVec (crossCov cov c2 c2) w2)]]

/-- Modelled from the spec (§4.3 NCO): cluster the assets, compute
intra-cluster minimum-variance weights on each cluster's sub-covariance,
compute inter-cluster minimum-variance weights on the synthetic 2×2
cluster covariance, and give each asset the product
intra-cluster weight × its cluster's inter-cluster weight. -/
def ncoAllocate (mu : Vec) (cov : Mat) : Vec :=
  let n := mu.length
  let (c1, c2) := ncoClusters cov n
  let intra1 := c1.zip (minVarWeights (subCov cov c1) c1.length)
  let intra2 := c2.zip (minVarWeights (subCov cov c2) c2.length)
  let inter := minVarWeights (interClusterCov cov c1 c2) 2
  let g1 := inter.getD 0 0
  let g2 := inter.getD 1 0
  (List.range n).map (fun i =>
    match intra1.find? (fun p => p.1 == i) with
    | some p => g1 * p.2
    | none => ((intra2.find? (fun p => p.1 == i)).map (fun p => g2 * p.2)).getD 0)

/-! ### Concrete fixtures

Concrete components used as inputs of the closed witness statements. -/

/-- An optimizer returning a fixed weight vector. -/
def constOpt (nm : String) (w : Vec) : OptimizerIface :=
  { name := nm, allocate := fun _ _ => .ok w }

/-- Two constant test optimizers. -/
def testOpts : List OptimizerIface := [constOpt "A" [1, 0], constOpt "B" [2, 0]]

/-- A deterministic configuration: the simulator returns a fixed
estimate, there are no transformers, and the estimator scores a weight
vector by its leading weight. -/
def testCfg : McosConfig Unit :=
  { simulate := fun r => .ok (([1, 2], [[1, 0], [0, 1]]), r)
    nObs := 5
    transformers := []
    estimator := fun w _ _ => .ok (w.getD 0 0)
    trueMu := [1, 2]
    trueCov := [[1, 0], [0, 1]] }

/-- A configuration whose simulator always fails. -/
def failSimCfg : McosConfig Unit :=
  { testCfg with simulate := fun _ => .error .numericalError }

/-- A configuration with a failing covariance transformer. -/
def failTransformCfg : McosConfig Unit :=
  { testCfg with transformers := [fun _ _ => .error .dimensionError] }

/-- An optimizer whose allocation always fails. -/
def failOpt : OptimizerIface :=
  { name := "failing", allocate := fun _ _ => .error .convergenceError }

/-- A configuration with a failing error estimator. -/
def failEstimatorCfg : McosConfig Unit :=
  { testCfg with estimator := fun _ _ _ => .error .configurationError }

/-- A placeholder golden row, used only as a `getD` default inside closed
witness statements. -/
def blankGoldenRow : GoldenRow :=
  { simulator := "", estimator := "", denoised := false,
    expected_mean := [], expected_stdev := [] }

/-! ### Helper lemmas -/

theorem exceptBind_ok {ε α β : Type} (a : α) (f : α → Except ε β) :
    (Except.ok a).bind f = f a := rfl

theorem exceptBind_error {ε α β : Type} (e : ε) (f : α → Except ε β) :
    (Except.error e : Except ε α).bind f = Except.error e := rfl

theorem exceptMap_ok {ε α β : Type} (f : α → β) (a : α) :
    Except.map f (Except.ok a : Except ε α) = Except.ok (f a) := rfl

theorem exceptMap_error {ε α β : Type} (f : α → β) (e : ε) :
    Except.map f (Except.error e : Except ε α) = Except.error e := rfl

theorem normalizeSum_length (w : Vec) : (normalizeSum w).length = w.length := by
  unfold normalizeSum
  split <;> simp

theorem solveLinear_length (A : Mat) (b : Vec) :
    (solveLinear A b).length = b.length := by
  simp [solveLinear]

theorem rpStep_length (cov : Mat) (w : Vec) : (rpStep cov w).length = w.length := by
  simp [rpStep, normalizeSum_length]

theorem rpIter_length (cov : Mat) (w : Vec) :
    ∀ k : ℕ, ((rpStep cov)^[k] w).length = w.length
  | 0 => rfl
  | k + 1 => by
      rw [Function.iterate_succ_apply', rpStep_length]
      exact rpIter_length cov w k

theorem trialErrors_ok_get {Rng : Type} (cfg : McosConfig Rng) (mu : Vec) (cov : Mat) :
    ∀ (opts : List OptimizerIface) (es : List ℚ) (i : ℕ) (o : OptimizerIface),
      trialErrors cfg mu cov opts = .ok es → opts.get? i = some o →
      ∃ w e, o.allocate mu cov = .ok w ∧
        cfg.estimator w cfg.trueMu cfg.trueCov = .ok e ∧ es.getD i 0 = e := by
  intro opts
  induction opts with
  | nil => intro es i o h hi; simp at hi
  | cons o' os ih =>
    intro es i o h hi
    simp only [trialErrors] at h
    cases hw : o'.allocate mu cov with
    | error e0 => rw [hw, exceptBind_error] at h; exact absurd h (by simp)
    | ok w =>
      rw [hw, exceptBind_ok] at h
      cases he : cfg.estimator w cfg.trueMu cfg.trueCov with
      | error e0 => rw [he, exceptBind_error] at h; exact absurd h (by simp)
      | ok e =>
        rw [he, exceptBind_ok] at h
        cases hr : trialErrors cfg mu cov os with
        | error e0 => rw [hr, exceptBind_error] at h; exact absurd h (by simp)
        | ok es' =>
          rw [hr, exceptBind_ok] at h
          cases h
          cases i with
          | zero =>
            simp only [List.get?] at hi
            cases hi
            exact ⟨w, e, hw, he, rfl⟩
          | succ i =>
            simp only [List.get?] at hi
            obtain ⟨w', e', hw', he', hg⟩ := ih es' i o hr hi
            exact ⟨w', e', hw', he', by simpa using hg⟩

theorem runTrials_ok_perOpt {Rng : Type} (cfg : McosConfig Rng)
    (opts : List OptimizerIface) :
    ∀ (n : ℕ) (rng : Rng) (trials : List (List ℚ)) (rng₂ : Rng),
      runTrials cfg opts n rng = .ok (trials, rng₂) →
      ∀ (i : ℕ) (o : OptimizerIface), opts.get? i = some o →
        perOptErrors cfg o n rng = .ok (column i trials) := by
  intro n
  induction n with
  | zero =>
    intro rng trials rng₂ h i o hi
    simp only [runTrials, Except.ok.injEq, Prod.mk.injEq] at h
    obtain ⟨h1, -⟩ := h
    subst h1
    rfl
  | succ n ihn =>
    intro rng trials rng₂ h i o hi
    simp only [runTrials] at h
    cases ht : runTrial cfg opts rng with
    | error e0 => rw [ht, exceptBind_error] at h; exact absurd h (by simp)
    | ok p =>
      rw [ht, exceptBind_ok] at h
      cases hr : runTrials cfg opts n p.2 with
      | error e0 => rw [hr, exceptBind_error] at h; exact absurd h (by simp)
      | ok q =>
        rw [hr, exceptBind_ok] at h
        simp only [Except.ok.injEq, Prod.mk.injEq] at h
        obtain ⟨h1, -⟩ := h
        subst h1
        simp only [runTrial] at ht
        cases hs : cfg.simulate rng with
        | error e0 => rw [hs, exceptBind_error] at ht; exact absurd ht (by simp)
        | ok ob =>
          rw [hs, exceptBind_ok] at ht
          cases hT : applyTransformers cfg.nObs cfg.transformers ob.1.2 with
          | error e0 => rw [hT, exceptBind_error] at ht; exact absurd ht (by simp)
          | ok cov' =>
            rw [hT, exceptBind_ok] at ht
            cases hE : trialErrors cfg ob.1.1 cov' opts with
            | error e0 => rw [hE, exceptBind_error] at ht; exact absurd ht (by simp)
            | ok es =>
              rw [hE, exceptBind_ok] at ht
              cases ht
              obtain ⟨w, e, hw, he, hg⟩ := trialErrors_ok_get cfg ob.1.1 cov' opts es i o hE hi
              have hrest := ihn ob.2 q.1 q.2 (by exact hr) i o hi
              simp only [perOptErrors]
              rw [hs, exceptBind_ok, hT, exceptBind_ok, hw, exceptBind_ok, he,
                exceptBind_ok, hrest, exceptBind_ok]
              simp only [column, List.map_cons]
              rw [hg]

theorem rowFor_ok {Rng : Type} (cfg : McosConfig Rng) (nSims : ℕ) (rng : Rng)
    (o : OptimizerIface) (errs : List ℚ)
    (h : perOptErrors cfg o nSims rng = .ok errs) :
    rowFor cfg nSims rng o =
      { optimizer_name := o.name, mean := arithMean errs, stdev := sampleStdev errs } := by
  unfold rowFor
  rw [h]

theorem rowFor_name {Rng : Type} (cfg : McosConfig Rng) (nSims : ℕ) (rng : Rng)
    (o : OptimizerIface) : (rowFor cfg nSims rng o).optimizer_name = o.name := by
  unfold rowFor
  split <;> rfl

theorem buildRowsAux_eq_map {Rng : Type} (cfg : McosConfig Rng) (nSims : ℕ) (rng : Rng)
    (trials : List (List ℚ)) :
    ∀ (os : List OptimizerIface) (base : ℕ),
      (∀ (k : ℕ) (o : OptimizerIface), os.get? k = some o →
        perOptErrors cfg o nSims rng = .ok (column (base + k) trials)) →
      buildRowsAux trials base os = os.map (rowFor cfg nSims rng) := by
  intro os
  induction os with
  | nil => intro base h; rfl
  | cons o os ih =>
    intro base h
    have h0 := h 0 o rfl
    rw [Nat.add_zero] at h0
    simp only [buildRowsAux, List.map_cons]
    rw [rowFor_ok cfg nSims rng o (column base trials) h0]
    rw [ih (base + 1) (fun k o' hk => by
      have := h (k + 1) o' (by simpa using hk)
      rwa [show base + (k + 1) = base + 1 + k by omega] at this)]

theorem run_ok_rows_eq {Rng : Type} (cfg : McosConfig Rng) (nSims : ℕ)
    (opts : List OptimizerIface) (rng : Rng) (rows : List ResultRow)
    (h : simulate_optimizations cfg nSims opts rng = .ok rows) :
    rows = opts.map (rowFor cfg nSims rng) := by
  unfold simulate_optimizations at h
  cases hr : runTrials cfg opts nSims rng with
  | error e => rw [hr, exceptMap_error] at h; exact absurd h (by simp)
  | ok p =>
    rw [hr, exceptMap_ok] at h
    cases h
    exact buildRowsAux_eq_map cfg nSims rng p.1 opts 0 (fun k o hk => by
      simpa using runTrials_ok_perOpt cfg opts nSims rng p.1 p.2 (by exact hr) k o hk)

theorem runTrials_abort {Rng : Type} (cfg : McosConfig Rng) (opts : List OptimizerIface) :
    ∀ (k : ℕ) (rng : Rng) (tr : List (List ℚ)) (rng' : Rng) (e : McosError) (n : ℕ),
      runTrials cfg opts k rng = .ok (tr, rng') →
      runTrial cfg opts rng' = .error e → k < n →
      runTrials cfg opts n rng = .error e := by
  intro k
  induction k with
  | zero =>
    intro rng tr rng' e n hk hf hlt
    simp only [runTrials, Except.ok.injEq, Prod.mk.injEq] at hk
    obtain ⟨-, h2⟩ := hk
    obtain ⟨n', rfl⟩ : ∃ n', n = n' + 1 := ⟨n - 1, by omega⟩
    simp only [runTrials]
    rw [← h2] at hf
    rw [hf, exceptBind_error]
  | succ k ihk =>
    intro rng tr rng' e n hk hf hlt
    simp only [runTrials] at hk
    cases ht : runTrial cfg opts rng with
    | error e0 => rw [ht, exceptBind_error] at hk; exact absurd hk (by simp)
    | ok p =>
      rw [ht, exceptBind_ok] at hk
      cases hr : runTrials cfg opts k p.2 with
      | error e0 => rw [hr, exceptBind_error] at hk; exact absurd hk (by simp)
      | ok q =>
        rw [hr, exceptBind_ok] at hk
        simp only [Except.ok.injEq, Prod.mk.injEq] at hk
        obtain ⟨-, h2⟩ := hk
        obtain ⟨n', rfl⟩ : ∃ n', n = n' + 1 := ⟨n - 1, by omega⟩
        simp only [runTrials]
        rw [ht, exceptBind_ok]
        rw [← h2] at hf
        rw [ihk p.2 q.1 q.2 e n' (by exact hr) hf (by omega), exceptBind_error]

/-! ### Claims -/

/-- C3: for every fixed generator state and identical argument tuple, two
runs of `simulate_optimizations` return identical results: the model is a
pure function of its arguments and the generator state, so equal seeds
give equal mean/stdev values. -/
theorem simulate_optimizations_deterministic {Rng : Type} (cfg : McosConfig Rng)
    (nSims : ℕ) (opts : List OptimizerIface) (rng₁ rng₂ : Rng) (h : rng₁ = rng₂) :
    simulate_optimizations cfg nSims opts rng₁ = simulate_optimizations cfg nSims opts rng₂ := by
  rw [h]

theorem simulate_optimizations_deterministic_witness :
    ((() : Unit) = ()) ∧
      simulate_optimizations testCfg 3 testOpts () = simulate_optimizations testCfg 3 testOpts () :=
  ⟨rfl, simulate_optimizations_deterministic testCfg 3 testOpts () () rfl⟩

/-- C6: evaluating the class body of `Optimizer` in
`src/mcos/optimizer/base.py` fails with `AttributeError`: the `name`
member applies `@abstractmethod` outside `@property`, and
`abstractmethod` cannot set `__isabstractmethod__` on a property object,
so no abstract read-only `name` property is produced. -/
theorem optimizer_class_body_attribute_error :
    evalOptimizerClassBody = .error .attributeError := rfl

/-- C5 (failing-input evaluation): the `Optimizer` class body of
`src/mcos/optimizer/base.py` never evaluates successfully, so the code
does not provide the pure `allocate`/`name` capability interface the
claim (and spec §9) describe. -/
theorem optimizer_class_body_never_succeeds : optimizerClassBodySucceeds = false := rfl

/-- C9: each of the three observation-simulator variants fails with an
error — modelled as §4.1's `NumericalError` — when fewer than 2
observations are requested, yielding no (mean, covariance) pair. -/
theorem simulate_fails_below_two_observations {Rng : Type}
    (draw : Rng → Vec × Rng) (δ : ℚ) (nObs : ℕ) (rng : Rng) (h : nObs < 2) :
    muCovSimulate draw nObs rng = .error .numericalError ∧
      muCovLedoitWolfSimulate δ draw nObs rng = .error .numericalError ∧
      muCovJackknifeSimulate draw nObs rng = .error .numericalError := by
  refine ⟨?_, ?_, ?_⟩ <;>
    simp [muCovSimulate, muCovLedoitWolfSimulate, muCovJackknifeSimulate, h]

theorem simulate_fails_below_two_observations_witness :
    (1 < 2) ∧
      (muCovSimulate (fun u : Unit => ([], u)) 1 () = .error .numericalError ∧
        muCovLedoitWolfSimulate (1 / 2) (fun u : Unit => ([], u)) 1 () = .error .numericalError ∧
        muCovJackknifeSimulate (fun u : Unit => ([], u)) 1 () = .error .numericalError) :=
  ⟨by decide,
    simulate_fails_below_two_observations (fun u : Unit => ([], u)) (1 / 2) 1 () (by decide)⟩

/-- C7: every modelled optimizer variant returns a weight vector whose
length equals the length of the expected-return vector (so with N = 4
true parameters every optimizer returns 4 weights), and the optimizer
interface itself imposes no constraint on the sum of the weights: it
admits an optimizer whose weights do not sum to 1. -/
theorem allocate_length_eq :
    (∀ (mu : Vec) (cov : Mat), (markowitzAllocate mu cov).length = mu.length) ∧
      (∀ (mu : Vec) (cov : Mat), (ncoAllocate mu cov).length = mu.length) ∧
      (∀ (mu : Vec) (cov : Mat), (hrpAllocate mu cov).length = mu.length) ∧
      (∀ (mu : Vec) (cov : Mat), (riskParityAllocate mu cov).length = mu.length) ∧
      (∃ (o : OptimizerIface) (mu : Vec) (cov : Mat) (w : Vec),
        o.allocate mu cov = .ok w ∧ w.length = mu.length ∧ w.sum ≠ 1) := by
  refine ⟨?_, ?_, ?_, ?_, ?_⟩
  · intro mu cov
    unfold markowitzAllocate
    split
    · simp [equalWeights]
    · rw [normalizeSum_length, solveLinear_length]
  · intro mu cov
    simp [ncoAllocate]
  · intro mu cov
    simp [hrpAllocate]
  · intro mu cov
    unfold riskParityAllocate
    rw [rpIter_length]
    simp [equalWeights]
  · exact ⟨⟨"test", fun _ _ => .ok [2, 3]⟩, [0, 0], [], [2, 3], rfl, rfl, by norm_num⟩

set_option maxHeartbeats 2000000 in
/-- C10: in the golden table of `tests/test_mcos.py`, every consecutive
pair of rows is a (denoised, no-transformer) pair for one and the same
(simulator, estimator) configuration; for every such configuration the
recorded reference mean and stdev vectors of the denoised run differ
from those of the run without the transformer; and in 29 of the 36
component comparisons (a majority) the no-transformer stdev is strictly
higher. -/
theorem golden_vectors_differ_without_transformer :
    (∀ q ∈ goldenPairs, q.1.simulator = q.2.simulator ∧ q.1.estimator = q.2.estimator ∧
        q.1.denoised = true ∧ q.2.denoised = false) ∧
      (∀ q ∈ goldenPairs,
        q.1.expected_mean ≠ q.2.expected_mean ∧ q.1.expected_stdev ≠ q.2.expected_stdev) ∧
      higherStdevCount = 29 ∧ 18 < higherStdevCount := by
  refine ⟨?_, ?_, ?_, ?_⟩
  · norm_num [goldenPairs, pairUp, goldenRows, List.forall_mem_cons]
  · norm_num [goldenPairs, pairUp, goldenRows, List.forall_mem_cons]
  · norm_num [higherStdevCount, goldenPairs, pairUp, goldenRows, countHigherStdev]
  · norm_num [higherStdevCount, goldenPairs, pairUp, goldenRows, countHigherStdev]

theorem golden_vectors_differ_without_transformer_witness :
    (goldenPairs.getD 0 (blankGoldenRow, blankGoldenRow) ∈ goldenPairs) ∧
      ((goldenPairs.getD 0 (blankGoldenRow, blankGoldenRow)).1.expected_mean ≠
          (goldenPairs.getD 0 (blankGoldenRow, blankGoldenRow)).2.expected_mean ∧
        (goldenPairs.getD 0 (blankGoldenRow, blankGoldenRow)).1.expected_stdev ≠
          (goldenPairs.getD 0 (blankGoldenRow, blankGoldenRow)).2.expected_stdev) :=
  ⟨by simp [goldenPairs, pairUp, goldenRows],
    (golden_vectors_differ_without_transformer.2).1 _
      (by simp [goldenPairs, pairUp, goldenRows])⟩

/-- C2: whenever `simulate_optimizations` succeeds, the row it reports
for the optimizer at position `i` carries exactly the arithmetic mean and
the sample standard deviation of that optimizer's `n_sims` per-trial
error scalars (as given by the straight-line per-optimizer recursion
`perOptErrors`, whose estimator yields one scalar per trial — no
aggregation happens inside the estimator). -/
theorem simulate_optimizations_mean_stdev {Rng : Type} (cfg : McosConfig Rng)
    (nSims : ℕ) (opts : List OptimizerIface) (rng : Rng) (rows : List ResultRow)
    (i : ℕ) (o : OptimizerIface) (errs : List ℚ)
    (hrun : simulate_optimizations cfg nSims opts rng = .ok rows)
    (hopt : opts.get? i = some o)
    (herrs : perOptErrors cfg o nSims rng = .ok errs) :
    rows.get? i = some { optimizer_name := o.name, mean := arithMean errs, stdev := sampleStdev errs } := by
  rw [run_ok_rows_eq cfg nSims opts rng rows hrun, List.get?_map, hopt]
  simp only [Option.map_some']
  rw [rowFor_ok cfg nSims rng o errs herrs]

theorem simulate_optimizations_mean_stdev_witness :
    (simulate_optimizations testCfg 3 testOpts () =
        .ok [{ optimizer_name := "A", mean := arithMean [1, 1, 1], stdev := sampleStdev [1, 1, 1] },
             { optimizer_name := "B", mean := arithMean [2, 2, 2], stdev := sampleStdev [2, 2, 2] }] ∧
      testOpts.get? 0 = some (constOpt "A" [1, 0]) ∧
      perOptErrors testCfg (constOpt "A" [1, 0]) 3 () = .ok [1, 1, 1]) ∧
      ([{ optimizer_name := "A", mean := arithMean [1, 1, 1], stdev := sampleStdev [1, 1, 1] },
        { optimizer_name := "B", mean := arithMean [2, 2, 2], stdev := sampleStdev [2, 2, 2] }] : List ResultRow).get? 0 =
        some { optimizer_name := "A", mean := arithMean [1, 1, 1], stdev := sampleStdev [1, 1, 1] } :=
  ⟨⟨rfl, rfl, rfl⟩,
    simulate_optimizations_mean_stdev testCfg 3 testOpts () _ 0 _ _ rfl rfl rfl⟩

/-- C4: whenever `simulate_optimizations` succeeds, its table equals the
input optimizer list mapped through the per-optimizer row builder — so
there is exactly one row per optimizer, rows carry `optimizer_name`
(string), `mean` and `stdev`, row order equals input optimizer order —
and whenever an optimizer of one run sits at position `i` where another
run's position `j` optimizer was, the rows sit at the same positions:
permuting the input permutes the output identically, with no sorting by
value. -/
theorem simulate_optimizations_row_order {Rng : Type} (cfg : McosConfig Rng) (nSims : ℕ) :
    (∀ (opts : List OptimizerIface) (rng : Rng) (rows : List ResultRow),
        simulate_optimizations cfg nSims opts rng = .ok rows →
        rows = opts.map (rowFor cfg nSims rng) ∧
        rows.map (fun r => r.optimizer_name) = opts.map (fun o => o.name) ∧
        rows.length = opts.length) ∧
      (∀ (opts₁ opts₂ : List OptimizerIface) (rng : Rng)
          (rows₁ rows₂ : List ResultRow) (i j : ℕ),
        simulate_optimizations cfg nSims opts₁ rng = .ok rows₁ →
        simulate_optimizations cfg nSims opts₂ rng = .ok rows₂ →
        opts₂.get? i = opts₁.get? j → rows₂.get? i = rows₁.get? j) := by
  constructor
  · intro opts rng rows h
    have hm := run_ok_rows_eq cfg nSims opts rng rows h
    refine ⟨hm, ?_, ?_⟩
    · rw [hm, List.map_map]
      congr 1
      funext o
      exact rowFor_name cfg nSims rng o
    · rw [hm, List.length_map]
  · intro opts₁ opts₂ rng rows₁ rows₂ i j h₁ h₂ hperm
    rw [run_ok_rows_eq cfg nSims opts₂ rng rows₂ h₂,
      run_ok_rows_eq cfg nSims opts₁ rng rows₁ h₁, List.get?_map, List.get?_map, hperm]

theorem simulate_optimizations_row_order_witness :
    (simulate_optimizations testCfg 3 testOpts () =
        .ok [{ optimizer_name := "A", mean := arithMean [1, 1, 1], stdev := sampleStdev [1, 1, 1] },
             { optimizer_name := "B", mean := arithMean [2, 2, 2], stdev := sampleStdev [2, 2, 2] }] ∧
      simulate_optimizations testCfg 3 [constOpt "B" [2, 0], constOpt "A" [1, 0]] () =
        .ok [{ optimizer_name := "B", mean := arithMean [2, 2, 2], stdev := sampleStdev [2, 2, 2] },
             { optimizer_name := "A", mean := arithMean [1, 1, 1], stdev := sampleStdev [1, 1, 1] }] ∧
      ([constOpt "B" [2, 0], constOpt "A" [1, 0]] : List OptimizerIface).get? 0 =
        testOpts.get? 1) ∧
      ([{ optimizer_name := "A", mean := arithMean [1, 1, 1], stdev := sampleStdev [1, 1, 1] },
        { optimizer_name := "B", mean := arithMean [2, 2, 2], stdev := sampleStdev [2, 2, 2] }] : List ResultRow).length = testOpts.length ∧
      ([{ optimizer_name := "B", mean := arithMean [2, 2, 2], stdev := sampleStdev [2, 2, 2] },
        { optimizer_name := "A", mean := arithMean [1, 1, 1], stdev := sampleStdev [1, 1, 1] }] : List ResultRow).get? 0 =
        ([{ optimizer_name := "A", mean := arithMean [1, 1, 1], stdev := sampleStdev [1, 1, 1] },
          { optimizer_name := "B", mean := arithMean [2, 2, 2], stdev := sampleStdev [2, 2, 2] }] : List ResultRow).get? 1 :=
  ⟨⟨rfl, rfl, rfl⟩,
    ((simulate_optimizations_row_order testCfg 3).1 testOpts () _ rfl).2.2,
    (simulate_optimizations_row_order testCfg 3).2 testOpts
      [constOpt "B" [2, 0], constOpt "A" [1, 0]] () _ _ 0 1 rfl rfl rfl⟩

/-- C8: a failing collaborator aborts the whole run with its original
error and no results table: a simulator failure, a transformer failure,
an optimizer (`allocate`) failure, an estimator failure, or any failing
trial body makes `runTrial`/`trialErrors` return that error, and when the
first `k` trials succeed and the next trial fails, the whole
`simulate_optimizations` call returns that error — no partial
aggregation of the successful trials. -/
theorem simulate_optimizations_aborts_on_failure {Rng : Type} (cfg : McosConfig Rng)
    (opts : List OptimizerIface) :
    (∀ (rng : Rng) (e : McosError), cfg.simulate rng = .error e →
        runTrial cfg opts rng = .error e) ∧
      (∀ (ob : (Vec × Mat) × Rng) (rng : Rng) (e : McosError),
        cfg.simulate rng = .ok ob →
        applyTransformers cfg.nObs cfg.transformers ob.1.2 = .error e →
        runTrial cfg opts rng = .error e) ∧
      (∀ (mu : Vec) (cov : Mat) (e : McosError) (o : OptimizerIface)
          (os : List OptimizerIface),
        o.allocate mu cov = .error e → trialErrors cfg mu cov (o :: os) = .error e) ∧
      (∀ (mu : Vec) (cov : Mat) (w : Vec) (e : McosError) (o : OptimizerIface)
          (os : List OptimizerIface),
        o.allocate mu cov = .ok w →
        cfg.estimator w cfg.trueMu cfg.trueCov = .error e →
        trialErrors cfg mu cov (o :: os) = .error e) ∧
      (∀ (ob : (Vec × Mat) × Rng) (rng : Rng) (cov' : Mat) (e : McosError),
        cfg.simulate rng = .ok ob →
        applyTransformers cfg.nObs cfg.transformers ob.1.2 = .ok cov' →
        trialErrors cfg ob.1.1 cov' opts = .error e →
        runTrial cfg opts rng = .error e) ∧
      (∀ (k n : ℕ) (rng : Rng) (tr : List (List ℚ)) (rng' : Rng) (e : McosError),
        runTrials cfg opts k rng = .ok (tr, rng') →
        runTrial cfg opts rng' = .error e → k < n →
        simulate_optimizations cfg n opts rng = .error e) := by
  refine ⟨?_, ?_, ?_, ?_, ?_, ?_⟩
  · intro rng e hs
    unfold runTrial
    rw [hs, exceptBind_error]
  · intro ob rng e hs hT
    unfold runTrial
    rw [hs, exceptBind_ok, hT, exceptBind_error]
  · intro mu cov e o os hw
    simp only [trialErrors]
    rw [hw, exceptBind_error]
  · intro mu cov w e o os hw he
    simp only [trialErrors]
    rw [hw, exceptBind_ok, he, exceptBind_error]
  · intro ob rng cov' e hs hT hE
    unfold runTrial
    rw [hs, exceptBind_ok, hT, exceptBind_ok, hE, exceptBind_error]
  · intro k n rng tr rng' e hk hf hlt
    unfold simulate_optimizations
    rw [runTrials_abort cfg opts k rng tr rng' e n hk hf hlt, exceptMap_error]

theorem simulate_optimizations_aborts_on_failure_witness :
    (failSimCfg.simulate () = .error .numericalError ∧
      runTrial failSimCfg testOpts () = .error .numericalError) ∧
      (failTransformCfg.simulate () = .ok (([1, 2], [[1, 0], [0, 1]]), ()) ∧
        applyTransformers failTransformCfg.nObs failTransformCfg.transformers
          [[1, 0], [0, 1]] = .error .dimensionError ∧
        runTrial failTransformCfg testOpts () = .error .dimensionError) ∧
      (failOpt.allocate [1, 2] [[1, 0], [0, 1]] = .error .convergenceError ∧
        trialErrors testCfg [1, 2] [[1, 0], [0, 1]] [failOpt] = .error .convergenceError) ∧
      ((constOpt "A" [1, 0]).allocate [1, 2] [[1, 0], [0, 1]] = .ok [1, 0] ∧
        failEstimatorCfg.estimator [1, 0] failEstimatorCfg.trueMu failEstimatorCfg.trueCov =
          .error .configurationError ∧
        trialErrors failEstimatorCfg [1, 2] [[1, 0], [0, 1]] [constOpt "A" [1, 0]] =
          .error .configurationError) ∧
      (runTrials failSimCfg testOpts 0 () = .ok ([], ()) ∧
        runTrial failSimCfg testOpts () = .error .numericalError ∧ 0 < 1 ∧
        simulate_optimizations failSimCfg 1 testOpts () = .error .numericalError) :=
  ⟨⟨rfl, (simulate_optimizations_aborts_on_failure failSimCfg testOpts).1 () _ rfl⟩,
    ⟨rfl, rfl,
      (simulate_optimizations_aborts_on_failure failTransformCfg testOpts).2.1
        (([1, 2], [[1, 0], [0, 1]]), ()) () _ rfl rfl⟩,
    ⟨rfl, (simulate_optimizations_aborts_on_failure testCfg testOpts).2.2.1
      [1, 2] [[1, 0], [0, 1]] _ failOpt [] rfl⟩,
    ⟨rfl, rfl,
      (simulate_optimizations_aborts_on_failure failEstimatorCfg testOpts).2.2.2.1
        [1, 2] [[1, 0], [0, 1]] [1, 0] _ (constOpt "A" [1, 0]) [] rfl rfl⟩,
    ⟨rfl, rfl, by decide,
      (simulate_optimizations_aborts_on_failure failSimCfg testOpts).2.2.2.2.2
        0 1 () [] () _ rfl rfl (by decide)⟩⟩

end Mcos
